import Mathlib

/-!
Verification of the SentinelPay sanitization-and-risk core.

Text is modelled as `List Char`.  Python strings become character lists,
the numbers of the risk rules (amounts, timestamps) become integers (see
the risk-scorer section), confidence scores become exact rationals,
dictionaries become Lean structures or total functions, and the two
external effects of the core (the violation log file and the collaborator
service) become an explicit ledger value threaded through the definitions
and an explicit outcome parameter.
-/

namespace SentinelPay

/-! ### Card classifier (src/agents/data_sanitizer.py, card_patterns) -/

/-- Model of the Visa entry of `DataSanitizer.card_patterns`: the regex
anchored at both ends, a literal 4, twelve digits, an optional group of
three further digits.  So: first char is 4, the rest are digits, and the
rest has length 12 or 15 (total length 13 or 16). -/
def visa_pattern (s : List Char) : Bool :=
  match s with
  | c :: rest => '4' == c && (rest.all Char.isDigit && (rest.length == 12 || rest.length == 15))
  | [] => false

/-- Model of the Mastercard pattern: anchored, a literal 5, one character
of the digit class 1-5, then fourteen digits (total length 16). -/
def mastercard_pattern (s : List Char) : Bool :=
  match s with
  | c1 :: c2 :: rest =>
      '5' == c1 && (decide ('1' ≤ c2) && decide (c2 ≤ '5'))
        && (rest.all Char.isDigit && rest.length == 14)
  | _ => false

/-- Model of the Amex pattern: anchored, a literal 3, then 4 or 7, then
thirteen digits (total length 15). -/
def amex_pattern (s : List Char) : Bool :=
  match s with
  | c1 :: c2 :: rest =>
      '3' == c1 && ('4' == c2 || '7' == c2) && (rest.all Char.isDigit && rest.length == 13)
  | _ => false

/-- Model of the Discover pattern: anchored, a literal 6, then either the
literal 011 or a 5 followed by two digits, then twelve digits (total
length 16). -/
def discover_pattern (s : List Char) : Bool :=
  match s with
  | c1 :: c2 :: c3 :: c4 :: rest =>
      '6' == c1
        && (('0' == c2 && '1' == c3 && '1' == c4) || ('5' == c2 && c3.isDigit && c4.isDigit))
        && (rest.all Char.isDigit && rest.length == 12)
  | _ => false

/-- Model of the JCB pattern: anchored, one of the literal prefixes 2131
or 1800 or a 35 followed by three digits, then eleven digits.  Note the
total length is 15 for the 2131 and 1800 prefixes but 16 for the 35
prefix (two prefix chars, three digits, eleven digits). -/
def jcb_pattern (s : List Char) : Bool :=
  (match s with
   | c1 :: c2 :: c3 :: c4 :: rest =>
       (('2' == c1 && '1' == c2 && '3' == c3 && '1' == c4)
         || ('1' == c1 && '8' == c2 && '0' == c3 && '0' == c4))
         && (rest.all Char.isDigit && rest.length == 11)
   | _ => false)
  || (match s with
      | c1 :: c2 :: c3 :: c4 :: c5 :: rest =>
          ('3' == c1 && '5' == c2 && (c3.isDigit && c4.isDigit && c5.isDigit))
            && (rest.all Char.isDigit && rest.length == 11)
      | _ => false)

/-- The card-type name strings returned by `DataSanitizer.get_card_type`. -/
def typeVisa : List Char := ['V', 'i', 's', 'a']

def typeMastercard : List Char := ['M', 'a', 's', 't', 'e', 'r', 'c', 'a', 'r', 'd']

def typeAmex : List Char := ['A', 'm', 'e', 'x']

def typeDiscover : List Char := ['D', 'i', 's', 'c', 'o', 'v', 'e', 'r']

def typeJCB : List Char := ['J', 'C', 'B']

def typeUnknown : List Char := ['U', 'n', 'k', 'n', 'o', 'w', 'n']

/-- Model of `DataSanitizer.get_card_type`: keep only the digit characters
of the input, then try the five brand patterns in the insertion order of
`card_patterns` (Visa, Mastercard, Amex, Discover, JCB) and return the
first matching brand name, else the string Unknown. -/
def get_card_type (pan : List Char) : List Char :=
  let pan_digits := pan.filter Char.isDigit
  if visa_pattern pan_digits then typeVisa
  else if mastercard_pattern pan_digits then typeMastercard
  else if amex_pattern pan_digits then typeAmex
  else if discover_pattern pan_digits then typeDiscover
  else if jcb_pattern pan_digits then typeJCB
  else typeUnknown

/-! ### PAN masking (src/agents/data_sanitizer.py, mask_pan) -/

/-- Model of `DataSanitizer.mask_pan`: keep only the digit characters; if
their count is between 13 and 19 return the first six digits, then one
star for each of the remaining digits except the last four, then the last
four digits; otherwise return the input unchanged. -/
def mask_pan (pan : List Char) : List Char :=
  let pan_digits := pan.filter Char.isDigit
  if 13 ≤ pan_digits.length ∧ pan_digits.length ≤ 19 then
    pan_digits.take 6 ++ List.replicate (pan_digits.length - 10) '*'
      ++ pan_digits.drop (pan_digits.length - 4)
  else pan

/-! ### Python string replacement and the regex-mode sanitizer -/

/-- Helper for `str_replace`.  The natural-number argument counts input
characters still covered by an already-replaced occurrence, which are
consumed without being emitted and without starting a new match, exactly
as the Python scan resumes after the end of a replaced occurrence. -/
def str_replace_aux (pat new : List Char) : List Char → Nat → List Char
  | [], _ => []
  | _ :: rest, Nat.succ k => str_replace_aux pat new rest k
  | c :: rest, 0 =>
    if !pat.isEmpty && pat.isPrefixOf (c :: rest) then
      new ++ str_replace_aux pat new rest (pat.length - 1)
    else c :: str_replace_aux pat new rest 0

/-- Model of the Python expression `s.replace(pat, new)`: replace every
occurrence of `pat` in `s` by `new`, scanning left to right and never
rematching inside a replaced occurrence.  (Python's behaviour on an empty
pattern, inserting `new` at every position, is not needed here: the
sanitizer only ever replaces regex matches, which contain at least 13
digits; for an empty pattern this model returns the input.) -/
def str_replace (s pat new : List Char) : List Char :=
  str_replace_aux pat new s 0

/-- Model of `DataSanitizer._sanitize_with_regex`.  The parameter
`pans_found` stands for the value of `self.pan_regex.findall(transaction_log)`,
the list of candidate tokens matched in the raw log, in match order; the
loop body is translated from the source: clean the token to its digits,
skip it if the digit count is outside 13..19, skip it if its card type is
Unknown, otherwise replace every occurrence of the raw token in the
current text by the masked digits.  (The audit hash computed by the source
is only printed, never stored, so it does not appear in the model.) -/
def sanitize_with_regex (transaction_log : List Char) : List (List Char) → List Char
  | [] => transaction_log
  | pan :: rest =>
    let cleaned_pan := pan.filter Char.isDigit
    if 13 ≤ cleaned_pan.length ∧ cleaned_pan.length ≤ 19 then
      if get_card_type cleaned_pan = typeUnknown then
        sanitize_with_regex transaction_log rest
      else
        sanitize_with_regex (str_replace transaction_log pan (mask_pan cleaned_pan)) rest
    else sanitize_with_regex transaction_log rest

/-- Whether `pat` occurs as a contiguous run of characters of `s`. -/
def hasSubstring (pat : List Char) : List Char → Bool
  | [] => pat.isEmpty
  | c :: rest => pat.isPrefixOf (c :: rest) || hasSubstring pat rest

/-! ### Violations and the ledger file
(src/agents/data_sanitizer.py `_log_violations`, src/main.py loading)

The violation log file holds one JSON-serialized record per line; loading
parses each line back.  Since the JSON serializer and parser of the Python
standard library are mutually inverse on these records, the file is
modelled by the list of records its lines encode, in file order; appending
a line is appending a record. -/

/-- A violation record, with the schema fixed by the system prompt of
`OllamaClient` (transaction id, violation type, timestamp, confidence
score). -/
structure Violation where
  transaction_id : List Char
  violation_type : List Char
  timestamp : List Char
  confidence_score : ℚ
deriving DecidableEq

/-- Model of `DataSanitizer._log_violations`: open the log file in append
mode and write the records one per line, in list order, after the existing
contents. -/
def log_violations (file : List Violation) (violations : List Violation) : List Violation :=
  violations.foldl (fun f v => f ++ [v]) file

/-- Model of the loading in `run_pipeline`: read every line of the file,
in order, parsing each back into a record. -/
def load_all (file : List Violation) : List Violation :=
  file

/-! ### The collaborator call and response parsing
(src/utils/ollama_client.py, `OllamaClient.process_transaction`) -/

/-- The outcome of one `ollama.chat` call: either the call raises (service
unreachable, timeout, any exception) or it returns a message whose content
is the given text. -/
inductive CollabCall where
  | unreachable
  | responds (content : List Char)
deriving DecidableEq

/-- The backquote character, written by code point to keep the source free
of literal backquotes. -/
def backquote : Char := Char.ofNat 96

/-- The opening brace character, by code point. -/
def lbrace : Char := Char.ofNat 123

/-- The closing brace character, by code point. -/
def rbrace : Char := Char.ofNat 125

/-- The eight-character fence opening with a json tag: three backquotes,
the letters j s o n, a newline. -/
def fenceOpenJson : List Char := [backquote, backquote, backquote, 'j', 's', 'o', 'n', '\n']

/-- The four-character plain fence opening: three backquotes, a newline. -/
def fenceOpenPlain : List Char := [backquote, backquote, backquote, '\n']

/-- The four-character fence closing: a newline, three backquotes. -/
def fenceClose : List Char := ['\n', backquote, backquote, backquote]

/-- Helper for `extractFenced`: a single left-to-right scan.  The counter
skips characters already consumed by a recognized fence delimiter; the
optional accumulator holds the reversed content of the currently open
block.  A block opening with no later closing contributes nothing, and no
other block can then be matched, since any later opening would need the
same (absent) closing sequence; this matches the regex engine failing the
match at the opening and finding no later match. -/
def extractFencedAux : List Char → Nat → Option (List Char) → List (List Char)
  | [], _, _ => []
  | _ :: rest, Nat.succ k, st => extractFencedAux rest k st
  | c :: rest, 0, some acc =>
    if fenceClose.isPrefixOf (c :: rest) then
      acc.reverse :: extractFencedAux rest 3 none
    else extractFencedAux rest 0 (some (c :: acc))
  | c :: rest, 0, none =>
    if fenceOpenJson.isPrefixOf (c :: rest) then
      extractFencedAux rest 7 (some [])
    else if fenceOpenPlain.isPrefixOf (c :: rest) then
      extractFencedAux rest 3 (some [])
    else extractFencedAux rest 0 none

/-- Model of the `re.findall` call in `process_transaction`: all contents
of fenced blocks (three backquotes, an optional json tag, a newline, then
the lazily shortest content up to a newline followed by three backquotes),
non-overlapping, leftmost first, content possibly spanning lines. -/
def extractFenced (content : List Char) : List (List Char) :=
  extractFencedAux content 0 none

/-- Model of the Python `str.strip()`: drop whitespace from both ends. -/
def pyStrip (s : List Char) : List Char :=
  ((s.dropWhile Char.isWhitespace).reverse.dropWhile Char.isWhitespace).reverse

/-- The JSON parsing steps of `process_transaction` that are delegated to
the Python standard library, as explicit functions: `parseObj content`
models `json.loads(content)` on an object together with the two lookups
the source performs on it (the sanitized-log field, defaulting to the
empty string, and the violations field, defaulting to the empty list),
returning `none` for a decode error; `parseArr content` models
`json.loads(content)` producing the violations list, `none` for a decode
error. -/
structure JsonLib where
  parseObj : List Char → Option (List Char × List Violation)
  parseArr : List Char → Option (List Violation)

/-- Model of `OllamaClient.process_transaction`.  An unreachable service
(any exception from the chat call) is caught and returns `none`.
Otherwise the response content is parsed: if fenced blocks are found, the
first block stripped is the sanitized log and the second block, when
present and parseable, is the violations list; if no fenced block is
found, the slice from the first opening brace to one past the last closing
brace is parsed as an object (Python's `find` returning -1 for a missing
opening brace skips the parse; `rfind` returning -1 makes the slice end 0,
so the slice is empty and fails to parse).  Every parse failure falls
through to the empty sanitized log and empty violations list: a response,
however malformed, always produces a result dictionary. -/
def process_transaction (lib : JsonLib) (call : CollabCall) :
    Option (List Char × List Violation) :=
  match call with
  | .unreachable => none
  | .responds content =>
    match extractFenced content with
    | m0 :: restM =>
      let sanitized_log := pyStrip m0
      let violations :=
        match restM with
        | m1 :: _ => (lib.parseArr m1).getD []
        | [] => []
      some (sanitized_log, violations)
    | [] =>
      match content.findIdx? (fun c => c = lbrace) with
      | some json_start =>
        let json_end :=
          match content.reverse.findIdx? (fun c => c = rbrace) with
          | some j => content.length - j
          | none => 0
        let json_string := (content.take json_end).drop json_start
        match lib.parseObj json_string with
        | some (sl, vs) => some (sl, vs)
        | none => some ([], [])
      | none => some ([], [])

/-- Model of `DataSanitizer.sanitize_transaction` in ollama mode: the
structured response, when present (the returned dictionary is never empty,
hence always truthy), has its violations appended to the violation log
file and its sanitized log returned; an absent response returns `None`
and writes nothing.  The first component is the returned value, the second
the records written to the file by this call. -/
def sanitize_transaction_ollama (lib : JsonLib) (call : CollabCall) :
    Option (List Char) × List Violation :=
  match process_transaction lib call with
  | some (sanitized_log, violations) => (some sanitized_log, violations)
  | none => (none, [])

/-- The sanitizer mode selected at construction. -/
inductive Mode where
  | regex
  | ollama
deriving DecidableEq

/-- Model of `DataSanitizer.sanitize_transaction`: ollama mode delegates
to the collaborator and may write violations to the log file; regex mode
runs the local scan (over the candidates `pans_found` matched by the PAN
regex in the raw log) and writes nothing.  The first component is the
returned value, the second the records written to the violation log file
by this call. -/
def sanitize_transaction (mode : Mode) (lib : JsonLib) (call : CollabCall)
    (transaction_log : List Char) (pans_found : List (List Char)) :
    Option (List Char) × List Violation :=
  match mode with
  | .ollama => sanitize_transaction_ollama lib call
  | .regex => (some (sanitize_with_regex transaction_log pans_found), [])

/-! ### Risk scorer (src/agents/risk_analyzer.py)

Timestamps are modelled as integers counting seconds and amounts as
integers in currency units.  Python's values are exact decimals and its
datetime arithmetic is exact to the microsecond; the scorer uses them
only in subtractions and order comparisons, so restricting the embedding
to integer values changes no branch structure, and the rule constants are
those of the source (threshold 1000, period 300 seconds, count 3). -/

/-- The fields of a transaction dictionary read by `calculate_risk_score`:
the amount, the timestamp, the name inside cardholder_details and the
country inside merchant_details. -/
structure Transaction where
  amount : ℤ
  timestamp : ℤ
  cardholder_name : List Char
  merchant_country : List Char
deriving DecidableEq

/-- The transaction-history dictionary of `RiskAnalyzer`, modelled as a
total map defaulting to the empty list: the source initializes a missing
cardholder key to the empty list before every read, so a missing key and
an empty-list entry are indistinguishable. -/
def History : Type := List Char → List Transaction

/-- The threshold of the high_transaction_value rule in risk_rules. -/
def high_value_threshold : ℤ := 1000

/-- The period of the multiple_transactions_short_period rule: five
minutes, in seconds. -/
def burst_period : ℤ := 300

/-- The count of the multiple_transactions_short_period rule. -/
def burst_count : Nat := 3

/-- The banned_countries list of the unusual_country rule. -/
def banned_countries : List (List Char) := [['U', 'S'], ['A', 'U']]

/-- Model of `RiskAnalyzer._update_transaction_history`: append the
transaction to its cardholder's history list, creating the list when the
cardholder is new; no other key changes. -/
def update_transaction_history (h : History) (tx : Transaction) : History :=
  fun c => if c = tx.cardholder_name then h c ++ [tx] else h c

/-- Model of `RiskAnalyzer._check_multiple_transactions`: keep the
cardholder's transactions whose timestamp, subtracted from the current
transaction's timestamp, is at most the period, and compare their number
with the count threshold.  (The subtraction is signed: a history entry
with a timestamp in the future of the current transaction always passes
the test.) -/
def check_multiple_transactions (h : History) (tx : Transaction) : Bool :=
  let recent_transactions :=
    (h tx.cardholder_name).filter (fun t => decide (tx.timestamp - t.timestamp ≤ burst_period))
  decide (burst_count ≤ recent_transactions.length)

/-- Model of `RiskAnalyzer.calculate_risk_score`: starting from zero, add
3 when the amount exceeds the threshold; register the transaction into the
history (unconditionally), then add 4 when the burst check passes on the
updated history; add 5 when the merchant country is not in the banned
list.  Returns the score together with the updated history, the method's
only mutation of the analyzer state. -/
def calculate_risk_score (h : History) (tx : Transaction) : ℤ × History :=
  let s1 : ℤ := if tx.amount > high_value_threshold then 3 else 0
  let h' := update_transaction_history h tx
  let s2 : ℤ := if check_multiple_transactions h' tx then 4 else 0
  let s3 : ℤ := if tx.merchant_country ∉ banned_countries then 5 else 0
  (s1 + s2 + s3, h')

/-! ### Pipeline orchestration (src/main.py, run_pipeline) -/

/-- The sanitized transaction record built by the sanitization stage of
`run_pipeline`: a fresh identifier, the original and sanitized logs, and
the placeholder risk-analysis fields (amount zero, cardholder and merchant
country the string Unknown).  The wall-clock timestamp field the source
also stores (the current UTC time as an ISO string) is outside a
deterministic embedding and is not modelled; no modelled computation reads
it in a run that completes. -/
structure SanitizedTx where
  transaction_id : List Char
  original_log : List Char
  sanitized_log : List Char
  amount : ℤ
  cardholder_name : List Char
  merchant_country : List Char
deriving DecidableEq

/-- The placeholder string Unknown used for the cardholder name and the
merchant country of a sanitized record. -/
def placeholderUnknown : List Char := ['U', 'n', 'k', 'n', 'o', 'w', 'n']

/-- The identifier string of the n-th successfully sanitized transaction:
the letters t x n, an underscore, and n in decimal. -/
def txn_id_of (n : Nat) : List Char :=
  ['t', 'x', 'n', '_'] ++ Nat.toDigits 10 n

/-- The sanitization stage of `run_pipeline` (one batch; across batches
the success counter, the output list and the violation log file are
threaded identically, so consecutive batches compose like one list).  Each
raw log comes paired with the outcome of its collaborator call.  The
sanitize call's violations are written to the log file whether or not the
call's returned value is kept; the returned value is kept only when it is
truthy, i.e. present and a non-empty string — `None` and the empty string
are both skipped with a failure message.  The accumulated success count
names the next identifier.  Returns the sanitized records and the final
violation log file. -/
def stage1 (lib : JsonLib) :
    List (List Char × CollabCall) → Nat → List Violation →
    List SanitizedTx × List Violation
  | [], _, file => ([], file)
  | (tx_log, call) :: rest, count, file =>
    match sanitize_transaction_ollama lib call with
    | (some sanitized_log, writes) =>
      if sanitized_log = [] then stage1 lib rest count (log_violations file writes)
      else
        let tx : SanitizedTx :=
          ⟨txn_id_of (count + 1), tx_log, sanitized_log, 0, placeholderUnknown, placeholderUnknown⟩
        let next := stage1 lib rest (count + 1) (log_violations file writes)
        (tx :: next.1, next.2)
    | (none, writes) => stage1 lib rest count (log_violations file writes)

/-- The structured risk assessment returned by the collaborator in
`analyze_risk_with_llm`: the source reads its risk_level field (defaulting
to Low) and its reasoning field (defaulting to the empty string). -/
structure Assessment where
  risk_level : Option (List Char)
  reasoning : Option (List Char)
deriving DecidableEq

/-- The strings of the risk-level table in `run_pipeline`. -/
def levelLow : List Char := ['L', 'o', 'w']

def levelMedium : List Char := ['M', 'e', 'd', 'i', 'u', 'm']

def levelHigh : List Char := ['H', 'i', 'g', 'h']

/-- The risk_score_mapping table of `run_pipeline` with its default:
Low 1, Medium 5, High 10, anything else 1. -/
def risk_score_mapping (level : List Char) : ℤ :=
  if level = levelLow then 1
  else if level = levelMedium then 5
  else if level = levelHigh then 10
  else 1

/-- A sanitized record extended with the risk fields the analysis stage
adds to it. -/
structure ScoredTx where
  tx : SanitizedTx
  risk_score : ℤ
  risk_reasoning : List Char
deriving DecidableEq

/-- The risk-analysis stage of `run_pipeline`.  The collaborator outcome
for a record is given by `oracle` (the source sends the record to the
service; the model makes the outcome a function of the record).  On a
structured assessment the score is mapped from the risk level and the
record is kept.  When the assessment is absent (collaborator failed or
unparseable) the source falls back to `calculate_risk_score` on the
sanitized record — whose timestamp field is an ISO string, so the
subtraction inside `_check_multiple_transactions` raises a TypeError; the
first raise is caught by the stage's handler, whose own fallback call
raises the same TypeError outside any handler and aborts the run.  The
abort is modelled as `none`. -/
def stage2 (oracle : SanitizedTx → Option Assessment) :
    List SanitizedTx → Option (List ScoredTx)
  | [] => some []
  | tx :: rest =>
    match oracle tx with
    | some a =>
      let level := a.risk_level.getD levelLow
      (stage2 oracle rest).map
        (fun l => ⟨tx, risk_score_mapping level, a.reasoning.getD []⟩ :: l)
    | none => none

/-- Model of `run_pipeline` in its default ollama mode, restricted to the
two pipeline stages and the violation set (reporting consumes their
outputs and is out of the modelled core): sanitize every raw log starting
from an empty violation log file, run the risk stage on the survivors, and
load the accumulated violation file.  The first component is the analyzed
transaction list (`none` when the risk stage aborted the run), the second
the loaded violation set. -/
def run_pipeline (lib : JsonLib) (oracle : SanitizedTx → Option Assessment)
    (raw_transactions : List (List Char × CollabCall)) :
    Option (List ScoredTx) × List Violation :=
  let s1 := stage1 lib raw_transactions 0 []
  (stage2 oracle s1.1, load_all s1.2)

/-! ### Definitions following the words of spec claims, for comparison
with the code models, and concrete data for witnesses and
counterexamples. -/

/-- The claim's phrase starts with 51 through 55: the first character is
5 and the second is between 1 and 5. -/
def starts_with_51_55 (s : List Char) : Bool :=
  match s with
  | c1 :: c2 :: _ => '5' == c1 && (decide ('1' ≤ c2) && decide (c2 ≤ '5'))
  | _ => false

/-- The brand table exactly as claim C2 states it, including its JCB row
(starts with 2131, 1800, or 35xxx, length 15); every digit string matching
no row classifies as Unknown.  The rows have pairwise disjoint prefixes,
so their order is immaterial. -/
def claim_card_type (s : List Char) : List Char :=
  if ['4'].isPrefixOf s && (s.length == 13 || s.length == 16) then typeVisa
  else if starts_with_51_55 s && s.length == 16 then typeMastercard
  else if (['3', '4'].isPrefixOf s || ['3', '7'].isPrefixOf s) && s.length == 15 then typeAmex
  else if (['6', '0', '1', '1'].isPrefixOf s || ['6', '5'].isPrefixOf s) && s.length == 16 then
    typeDiscover
  else if (['2', '1', '3', '1'].isPrefixOf s || ['1', '8', '0', '0'].isPrefixOf s
      || ['3', '5'].isPrefixOf s) && s.length == 15 then typeJCB
  else typeUnknown

/-- The brand table of claim C2 with its JCB row amended to what the code
implements: prefixes 2131 and 1800 with length 15, or prefix 35 with
length 16. -/
def amended_card_type (s : List Char) : List Char :=
  if ['4'].isPrefixOf s && (s.length == 13 || s.length == 16) then typeVisa
  else if starts_with_51_55 s && s.length == 16 then typeMastercard
  else if (['3', '4'].isPrefixOf s || ['3', '7'].isPrefixOf s) && s.length == 15 then typeAmex
  else if (['6', '0', '1', '1'].isPrefixOf s || ['6', '5'].isPrefixOf s) && s.length == 16 then
    typeDiscover
  else if ((['2', '1', '3', '1'].isPrefixOf s || ['1', '8', '0', '0'].isPrefixOf s)
        && s.length == 15)
      || (['3', '5'].isPrefixOf s && s.length == 16) then typeJCB
  else typeUnknown

/-- A 16-digit string starting with 35. -/
def jcb16ex : List Char :=
  ['3', '5', '1', '2', '3', '4', '5', '6', '7', '8', '9', '0', '1', '2', '3', '4']

/-- A 15-digit string starting with 35. -/
def jcb15ex : List Char :=
  ['3', '5', '1', '2', '3', '4', '5', '6', '7', '8', '9', '0', '1', '2', '3']

/-- The burst count condition exactly as claim C4 states it: after
registering the current transaction, count the cardholder's transactions
whose timestamp is within five minutes of the current transaction's
timestamp, that is, differs from it by at most 300 seconds in either
direction. -/
def claim_check_multiple_transactions (h : History) (tx : Transaction) : Bool :=
  let recent :=
    ((update_transaction_history h tx) tx.cardholder_name).filter
      (fun t => decide (tx.timestamp - t.timestamp ≤ burst_period)
        && decide (t.timestamp - tx.timestamp ≤ burst_period))
  decide (burst_count ≤ recent.length)

/-- The risk score exactly as claim C4 states it: the sum of the three
rule contributions, with the burst contribution decided by
`claim_check_multiple_transactions`. -/
def claim_risk_score (h : History) (tx : Transaction) : ℤ :=
  (if tx.amount > high_value_threshold then 3 else 0)
    + (if claim_check_multiple_transactions h tx then 4 else 0)
    + (if tx.merchant_country ∉ banned_countries then 5 else 0)

/-- A low-value US transaction for cardholder X at the given timestamp
(seconds). -/
def txX (ts : ℤ) : Transaction :=
  ⟨50, ts, ['X'], ['U', 'S']⟩

/-- The empty transaction-history store of a fresh analyzer. -/
def emptyHistory : History := fun _ => []

/-- The analyzer state after scoring the given transactions in order,
starting from a fresh analyzer. -/
def process_history (txs : List Transaction) : History :=
  txs.foldl (fun h t => (calculate_risk_score h t).2) emptyHistory

/-- A history store holding, for cardholder X, two transactions
timestamped one hour (3600 seconds) after time zero. -/
def historyC4 : History :=
  fun c => if c = ['X'] then [txX 3600, txX 3600] else []

/-- A Visa candidate token: a 4 followed by fifteen 1 digits. -/
def visaTok : List Char := '4' :: List.replicate 15 '1'

/-- A 17-digit candidate token, a 7 followed by `visaTok`; it matches no
brand pattern, so it classifies Unknown. -/
def unkTok : List Char := '7' :: visaTok

/-- A raw log containing the Visa token and then the Unknown token,
separated by a space.  On this text the PAN regex findall returns exactly
the two tokens: each is a word-boundary-delimited digit run of 16
respectively 17 digits, and no match can span the separating space, since
a span crossing it would hold 17, 18 or 19 digits and end in the middle
of the second run, where the final word boundary fails. -/
def logC5 : List Char := visaTok ++ ' ' :: unkTok

/-- The findall result of the PAN regex on `logC5`. -/
def pansC5 : List (List Char) := [visaTok, unkTok]

/-- The masked form of `visaTok`: first six digits, six stars, last four
digits. -/
def maskedVisa : List Char :=
  ['4', '1', '1', '1', '1', '1'] ++ List.replicate 6 '*' ++ ['1', '1', '1', '1']

/-- The candidate-token test applied by the regex-mode loop: digit count
within 13..19 and a card type other than Unknown. -/
def pan_candidate_kept (p : List Char) : Bool :=
  decide (13 ≤ (p.filter Char.isDigit).length ∧ (p.filter Char.isDigit).length ≤ 19)
    && !(decide (get_card_type (p.filter Char.isDigit) = typeUnknown))

/-- A JSON library model whose parses always fail, usable whenever the
parse functions are not consulted. -/
def jsonLibNone : JsonLib := ⟨fun _ => none, fun _ => none⟩

/-- A response content with no fenced block and no brace: parsing it
consults no JSON parser and falls through to the empty results. -/
def helloChars : List Char := ['h', 'e', 'l', 'l', 'o']

/-- A collaborator response text: a JSON object whose sanitized log is
the empty string and whose violations list holds one record.  (Braces are
written by code point.) -/
def contentBadChars : List Char :=
  "\x7b\"sanitized_log\": \"\", \"violations\": [\x7b\"transaction_id\": \"N/A\", \"violation_type\": \"CVV in log\", \"timestamp\": \"T\", \"confidence_score\": 1\x7d]\x7d".toList

/-- A collaborator response text: a JSON object whose sanitized log is
the string ok and whose violations list is empty. -/
def contentGoodChars : List Char :=
  "\x7b\"sanitized_log\": \"ok\", \"violations\": []\x7d".toList

/-- The violation record carried by `contentBadChars`. -/
def vEx : Violation :=
  ⟨"N/A".toList, "CVV in log".toList, "T".toList, 1⟩

/-- The sanitized log carried by `contentGoodChars`. -/
def okChars : List Char := ['o', 'k']

/-- A JSON library model for the two concrete response texts above: it
maps the object slice of `contentBadChars` to the empty sanitized log
together with the one-record violations list, the object slice of
`contentGoodChars` to the ok sanitized log with no violations, and fails
on anything else, as `json.loads` does on those texts. -/
def jsonLibEx : JsonLib :=
  ⟨fun s =>
    if s = contentBadChars then some ([], [vEx])
    else if s = contentGoodChars then some (okChars, [])
    else none,
   fun _ => none⟩

/-- A risk collaborator that assesses every record as Low risk with a
one-letter reasoning. -/
def oracleLowEx : SanitizedTx → Option Assessment :=
  fun _ => some ⟨some levelLow, some ['r']⟩

/-- Two raw logs. -/
def logRaw1 : List Char := "raw one".toList

def logRaw2 : List Char := "raw two".toList

/-- A two-transaction batch: the first transaction's collaborator call
returns `contentBadChars` (empty sanitized log, one violation), the
second returns `contentGoodChars`. -/
def txsC8 : List (List Char × CollabCall) :=
  [(logRaw1, .responds contentBadChars), (logRaw2, .responds contentGoodChars)]

/-! ## Helper lemmas -/

theorem boolEqOfIff {a b : Bool} (h : a = true ↔ b = true) : a = b := by
  cases a <;> cases b <;> simp_all

theorem log_violations_append (file vs : List Violation) :
    log_violations file vs = file ++ vs := by
  induction vs generalizing file with
  | nil => simp [log_violations]
  | cons v rest ih =>
    have step : log_violations file (v :: rest) = log_violations (file ++ [v]) rest := rfl
    rw [step, ih]
    simp

theorem filter_star_replicate (n : Nat) :
    List.filter Char.isDigit (List.replicate n '*') = [] := by
  induction n with
  | zero => rfl
  | succ n ih =>
    rw [List.replicate_succ, List.filter_cons]
    simp [ih, (by decide : Char.isDigit '*' = false)]

theorem mask_pan_invalid (t : List Char)
    (h : ¬ (13 ≤ (t.filter Char.isDigit).length ∧ (t.filter Char.isDigit).length ≤ 19)) :
    mask_pan t = t := by
  simp only [mask_pan]
  rw [if_neg h]

theorem mask_pan_valid (t : List Char)
    (h : 13 ≤ (t.filter Char.isDigit).length ∧ (t.filter Char.isDigit).length ≤ 19) :
    mask_pan t = (t.filter Char.isDigit).take 6
      ++ List.replicate ((t.filter Char.isDigit).length - 10) '*'
      ++ (t.filter Char.isDigit).drop ((t.filter Char.isDigit).length - 4) := by
  simp only [mask_pan]
  rw [if_pos h]

/-! ## Claim theorems -/

/-- C1: for every analyzer state and every transaction,
`calculate_risk_score` returns exactly the sum of 3 when the amount
exceeds 1000, 4 when the burst rule triggers, and 5 when the merchant
country is not US or AU; consequently the score is always one of 0, 3, 4,
5, 7, 8, 9 and 12. -/
theorem C1_risk_score_sum (h : History) (tx : Transaction) :
    (calculate_risk_score h tx).1
      = (if tx.amount > high_value_threshold then 3 else 0)
        + (if check_multiple_transactions (update_transaction_history h tx) tx then 4 else 0)
        + (if tx.merchant_country ∉ banned_countries then 5 else 0)
    ∧ (calculate_risk_score h tx).1 ∈ ([0, 3, 4, 5, 7, 8, 9, 12] : List ℤ) := by
  have he : (calculate_risk_score h tx).1
      = (if tx.amount > high_value_threshold then 3 else 0)
        + (if check_multiple_transactions (update_transaction_history h tx) tx then 4 else 0)
        + (if tx.merchant_country ∉ banned_countries then 5 else 0) := rfl
  refine ⟨he, ?_⟩
  rw [he]
  split <;> split <;> split <;> decide

/-- C3: for every input string whose digit count lies in 13..19,
`mask_pan` returns the first six of those digits, then one star for each
of the remaining digits except the last four (exactly count minus ten
stars), then the last four digits; for every input whose digit count lies
outside 13..19 it returns the input unchanged. -/
theorem C3_mask_contract (s : List Char) :
    (13 ≤ (s.filter Char.isDigit).length ∧ (s.filter Char.isDigit).length ≤ 19 →
      mask_pan s = (s.filter Char.isDigit).take 6
        ++ List.replicate ((s.filter Char.isDigit).length - 10) '*'
        ++ (s.filter Char.isDigit).drop ((s.filter Char.isDigit).length - 4))
    ∧ (¬ (13 ≤ (s.filter Char.isDigit).length ∧ (s.filter Char.isDigit).length ≤ 19) →
      mask_pan s = s) :=
  ⟨mask_pan_valid s, mask_pan_invalid s⟩

/-- Witness for C3 at a concrete 16-digit token. -/
theorem C3_mask_contract_witness :
    (13 ≤ (visaTok.filter Char.isDigit).length ∧ (visaTok.filter Char.isDigit).length ≤ 19)
    ∧ mask_pan visaTok = (visaTok.filter Char.isDigit).take 6
        ++ List.replicate ((visaTok.filter Char.isDigit).length - 10) '*'
        ++ (visaTok.filter Char.isDigit).drop ((visaTok.filter Char.isDigit).length - 4) :=
  ⟨by decide, (C3_mask_contract visaTok).1 (by decide)⟩

/-- C9: `mask_pan` is idempotent on every input string: a masked output
holds exactly ten digits, which lies outside 13..19, so a second
application returns it unchanged. -/
theorem C9_mask_idempotent (s : List Char) :
    mask_pan (mask_pan s) = mask_pan s := by
  by_cases hc : 13 ≤ (s.filter Char.isDigit).length ∧ (s.filter Char.isDigit).length ≤ 19
  · have h1 := mask_pan_valid s hc
    have hdigits : ∀ c ∈ s.filter Char.isDigit, Char.isDigit c := by
      intro c hm
      exact (List.mem_filter.mp hm).2
    have htake : List.filter Char.isDigit ((s.filter Char.isDigit).take 6)
        = (s.filter Char.isDigit).take 6 :=
      List.filter_eq_self.mpr fun c hm => hdigits c (List.take_subset _ _ hm)
    have hdrop : List.filter Char.isDigit
          ((s.filter Char.isDigit).drop ((s.filter Char.isDigit).length - 4))
        = (s.filter Char.isDigit).drop ((s.filter Char.isDigit).length - 4) :=
      List.filter_eq_self.mpr fun c hm => hdigits c (List.drop_subset _ _ hm)
    have hlen : ((mask_pan s).filter Char.isDigit).length = 10 := by
      rw [h1]
      rw [List.filter_append, List.filter_append, htake, hdrop, filter_star_replicate]
      simp only [List.append_nil, List.length_append, List.length_take, List.length_drop]
      omega
    have h2 := mask_pan_invalid (mask_pan s) (by rw [hlen]; omega)
    rw [h2]
  · rw [mask_pan_invalid s hc, mask_pan_invalid s hc]

/-- C10: every call to `calculate_risk_score` appends exactly the given
transaction to its cardholder's history list, preserving the existing
entries and their order, and leaves every other cardholder's history
unchanged. -/
theorem C10_history_frame (h : History) (tx : Transaction) :
    (calculate_risk_score h tx).2 tx.cardholder_name = h tx.cardholder_name ++ [tx]
    ∧ ∀ c, c ≠ tx.cardholder_name → (calculate_risk_score h tx).2 c = h c := by
  constructor
  · simp [calculate_risk_score, update_transaction_history]
  · intro c hcne
    simp [calculate_risk_score, update_transaction_history, hcne]

/-- Witness for C10 at a concrete state and an unrelated cardholder. -/
theorem C10_history_frame_witness :
    (['B'] : List Char) ≠ (txX 0).cardholder_name
    ∧ (calculate_risk_score historyC4 (txX 0)).2 ['B'] = historyC4 ['B'] :=
  ⟨by decide, (C10_history_frame historyC4 (txX 0)).2 ['B'] (by decide)⟩

/-- C7: the ledger round-trip: appending lists of violation records
across any number of append calls and then loading yields exactly the
previous contents followed by all appended records, concatenated in
append order — no record is rewritten, removed, deduplicated or
reordered, and identical records appended twice appear twice. -/
theorem C7_ledger_round_trip (file : List Violation) (vss : List (List Violation)) :
    load_all (vss.foldl log_violations file) = load_all file ++ vss.flatten := by
  induction vss generalizing file with
  | nil => simp [load_all]
  | cons vs rest ih =>
    rw [List.foldl_cons, ih, log_violations_append]
    simp [load_all]

/-! ## Brand-pattern equivalence lemmas for the card classifier -/

theorem all_digit_tail {c : Char} {rest : List Char}
    (h : ∀ x ∈ c :: rest, Char.isDigit x) : rest.all Char.isDigit = true := by
  rw [List.all_eq_true]
  intro x hx
  exact h x (List.mem_cons_of_mem _ hx)

theorem visa_pattern_eq (s : List Char) (hall : ∀ c ∈ s, Char.isDigit c) :
    visa_pattern s = (['4'].isPrefixOf s && (s.length == 13 || s.length == 16)) := by
  apply boolEqOfIff
  rcases s with _ | ⟨c, rest⟩
  · simp [visa_pattern, List.isPrefixOf]
  · have hrest := all_digit_tail hall
    simp [visa_pattern, List.isPrefixOf, hrest, List.length_cons]

theorem mastercard_pattern_eq (s : List Char) (hall : ∀ c ∈ s, Char.isDigit c) :
    mastercard_pattern s = (starts_with_51_55 s && s.length == 16) := by
  apply boolEqOfIff
  rcases s with _ | ⟨c1, _ | ⟨c2, rest⟩⟩
  · simp [mastercard_pattern, starts_with_51_55]
  · simp [mastercard_pattern, starts_with_51_55]
  · have hrest : rest.all Char.isDigit = true := by
      rw [List.all_eq_true]
      intro x hx
      exact hall x (List.mem_cons_of_mem _ (List.mem_cons_of_mem _ hx))
    simp [mastercard_pattern, starts_with_51_55, hrest, List.length_cons]

theorem amex_pattern_eq (s : List Char) (hall : ∀ c ∈ s, Char.isDigit c) :
    amex_pattern s = ((['3', '4'].isPrefixOf s || ['3', '7'].isPrefixOf s) && s.length == 15) := by
  apply boolEqOfIff
  rcases s with _ | ⟨c1, _ | ⟨c2, rest⟩⟩
  · simp [amex_pattern, List.isPrefixOf]
  · simp [amex_pattern, List.isPrefixOf]
  · have hrest : rest.all Char.isDigit = true := by
      rw [List.all_eq_true]
      intro x hx
      exact hall x (List.mem_cons_of_mem _ (List.mem_cons_of_mem _ hx))
    simp [amex_pattern, List.isPrefixOf, hrest, List.length_cons]
    tauto

theorem discover_pattern_eq (s : List Char) (hall : ∀ c ∈ s, Char.isDigit c) :
    discover_pattern s
      = ((['6', '0', '1', '1'].isPrefixOf s || ['6', '5'].isPrefixOf s) && s.length == 16) := by
  apply boolEqOfIff
  rcases s with _ | ⟨c1, _ | ⟨c2, _ | ⟨c3, _ | ⟨c4, rest⟩⟩⟩⟩
  · simp [discover_pattern, List.isPrefixOf]
  · simp [discover_pattern, List.isPrefixOf]
  · simp [discover_pattern, List.isPrefixOf]
  · simp [discover_pattern, List.isPrefixOf]
  · have hrest : rest.all Char.isDigit = true := by
      rw [List.all_eq_true]
      intro x hx
      refine hall x ?_
      simp [hx]
    have hc3 : Char.isDigit c3 := by
      refine hall c3 ?_
      simp
    have hc4 : Char.isDigit c4 := by
      refine hall c4 ?_
      simp
    simp [discover_pattern, List.isPrefixOf, hrest, List.length_cons, hc3, hc4]
    tauto

theorem jcb_pattern_eq (s : List Char) (hall : ∀ c ∈ s, Char.isDigit c) :
    jcb_pattern s
      = (((['2', '1', '3', '1'].isPrefixOf s || ['1', '8', '0', '0'].isPrefixOf s)
            && s.length == 15)
          || (['3', '5'].isPrefixOf s && s.length == 16)) := by
  apply boolEqOfIff
  rcases s with _ | ⟨c1, _ | ⟨c2, _ | ⟨c3, _ | ⟨c4, _ | ⟨c5, rest⟩⟩⟩⟩⟩
  · simp [jcb_pattern, List.isPrefixOf]
  · simp [jcb_pattern, List.isPrefixOf]
  · simp [jcb_pattern, List.isPrefixOf]
  · simp [jcb_pattern, List.isPrefixOf]
  · simp [jcb_pattern, List.isPrefixOf]
  · have hrest : rest.all Char.isDigit = true := by
      rw [List.all_eq_true]
      intro x hx
      refine hall x ?_
      simp [hx]
    have hc3 : Char.isDigit c3 := by
      refine hall c3 ?_
      simp
    have hc4 : Char.isDigit c4 := by
      refine hall c4 ?_
      simp
    have hc5 : Char.isDigit c5 := by
      refine hall c5 ?_
      simp
    simp [jcb_pattern, List.isPrefixOf, hrest, List.length_cons, hc3, hc4, hc5]
    tauto

/-- C2 (amended): for every digit string, `get_card_type` returns exactly
the brand of the claim's prefix/length table with its JCB row corrected to
the code: JCB is prefix 2131 or 1800 with length 15, or prefix 35 with
length 16; every digit string matching no row returns Unknown. -/
theorem C2_card_type_amended (s : List Char) (hdig : s.all Char.isDigit = true) :
    get_card_type s = amended_card_type s := by
  have hmem : ∀ c ∈ s, Char.isDigit c := List.all_eq_true.mp hdig
  have hfilter : s.filter Char.isDigit = s := List.filter_eq_self.mpr hmem
  simp only [get_card_type, amended_card_type, hfilter]
  rw [visa_pattern_eq s hmem, mastercard_pattern_eq s hmem, amex_pattern_eq s hmem,
    discover_pattern_eq s hmem, jcb_pattern_eq s hmem]

/-- Witness for C2 at a concrete 16-digit string. -/
theorem C2_card_type_amended_witness :
    jcb16ex.all Char.isDigit = true ∧ get_card_type jcb16ex = amended_card_type jcb16ex :=
  ⟨by decide, C2_card_type_amended jcb16ex (by decide)⟩

/-- Counterexample to C2 as stated: the claim's JCB row (prefix 2131,
1800 or 35, length 15) disagrees with the code on 35-prefixed strings in
both directions: the code classifies a 16-digit 35-string as JCB where
the claim's table says Unknown, and classifies a 15-digit 35-string as
Unknown where the claim's table says JCB. -/
theorem C2_counterexample :
    get_card_type jcb16ex = typeJCB ∧ claim_card_type jcb16ex = typeUnknown
    ∧ get_card_type jcb15ex = typeUnknown ∧ claim_card_type jcb15ex = typeJCB := by
  refine ⟨by decide, by decide, by decide, by decide⟩

/-- C4 (amended): `calculate_risk_score` always registers the current
transaction into its cardholder's history before evaluating the burst
condition, then counts that cardholder's transactions, the current one
included, whose timestamp is at most 5 minutes older than the current
transaction's timestamp — with no bound in the other direction, so
entries timestamped in the future always count — and adds 4 exactly when
that count is at least 3.  In particular, for three same-cardholder
transactions at minutes 0, 2 and 4 the third scores the 4, and a fourth
transaction 6 minutes later does not trigger the rule. -/
theorem C4_burst_amended (h : History) (tx : Transaction) :
    (calculate_risk_score h tx).2 tx.cardholder_name = h tx.cardholder_name ++ [tx]
    ∧ (calculate_risk_score h tx).1
      = (if tx.amount > high_value_threshold then 3 else 0)
        + (if 3 ≤ ((h tx.cardholder_name ++ [tx]).filter
              (fun t => decide (tx.timestamp - t.timestamp ≤ burst_period))).length then 4 else 0)
        + (if tx.merchant_country ∉ banned_countries then 5 else 0)
    ∧ (calculate_risk_score (process_history [txX 0, txX 120]) (txX 240)).1 = 4
    ∧ (calculate_risk_score (process_history [txX 0, txX 120, txX 240]) (txX 600)).1 = 0 := by
  refine ⟨?_, ?_, by decide, by decide⟩
  · simp [calculate_risk_score, update_transaction_history]
  · have hh : update_transaction_history h tx tx.cardholder_name
        = h tx.cardholder_name ++ [tx] := by
      simp [update_transaction_history]
    have e2 : check_multiple_transactions (update_transaction_history h tx) tx
        = decide (3 ≤ ((h tx.cardholder_name ++ [tx]).filter
            (fun t => decide (tx.timestamp - t.timestamp ≤ burst_period))).length) := by
      simp [check_multiple_transactions, hh, burst_count]
    show (if tx.amount > high_value_threshold then (3:ℤ) else 0)
        + (if check_multiple_transactions (update_transaction_history h tx) tx then 4 else 0)
        + (if tx.merchant_country ∉ banned_countries then 5 else 0) = _
    rw [e2]
    simp

/-- Counterexample to C4 as stated: with two history entries for
cardholder X timestamped one hour in the future of the current
transaction, the code counts both (the signed difference is negative,
hence at most the period) and scores the burst 4, while the claim's
reading — timestamps within 5 minutes of the current one — counts only
the current transaction and scores 0. -/
theorem C4_counterexample :
    (calculate_risk_score historyC4 (txX 0)).1 = 4 ∧ claim_risk_score historyC4 (txX 0) = 0 := by
  refine ⟨by decide, by decide⟩

/-- C5 (amended): in pattern mode the sanitizer writes no violation
record for any input, and candidate tokens whose cleaned digits are out
of range or classify as Unknown are skipped — removing them from the
candidate list leaves the output unchanged.  (A skipped token's text can
nonetheless be altered when a kept token's character sequence occurs
inside it, because masking replaces every occurrence in the whole text.) -/
theorem C5_pattern_mode (log : List Char) (pans : List (List Char)) :
    sanitize_with_regex log pans = sanitize_with_regex log (pans.filter pan_candidate_kept)
    ∧ ∀ (lib : JsonLib) (call : CollabCall),
        (sanitize_transaction .regex lib call log pans).2 = [] := by
  constructor
  · induction pans generalizing log with
    | nil => rfl
    | cons p rest ih =>
      by_cases h1 : 13 ≤ (p.filter Char.isDigit).length ∧ (p.filter Char.isDigit).length ≤ 19
      · by_cases h2 : get_card_type (p.filter Char.isDigit) = typeUnknown
        · simp [sanitize_with_regex, List.filter_cons, pan_candidate_kept, h1, h2, ih]
        · simp [sanitize_with_regex, List.filter_cons, pan_candidate_kept, h1, h2, ih]
      · simp [sanitize_with_regex, List.filter_cons, pan_candidate_kept, h1, ih]
  · intro lib call
    rfl

set_option maxRecDepth 8192 in
/-- Counterexample to C5 as stated: on a log holding a Visa token and an
Unknown-classified 17-digit token that contains the Visa token's text,
masking the Visa token rewrites every occurrence of its text, so the
Unknown token does not survive unmodified in the returned text. -/
theorem C5_counterexample :
    get_card_type unkTok = typeUnknown
    ∧ hasSubstring unkTok logC5 = true
    ∧ sanitize_with_regex logC5 pansC5 = maskedVisa ++ ' ' :: '7' :: maskedVisa
    ∧ hasSubstring unkTok (sanitize_with_regex logC5 pansC5) = false := by
  refine ⟨by decide, by decide, by decide, by decide⟩

/-- C6 (amended): when the collaborator call raises, assisted-mode
sanitization returns the absent result and writes nothing; but whenever
the collaborator responds at all, however malformed the response,
`process_transaction` never returns the absent result — parse failures
fall through to an empty sanitized string, which is not distinct from an
empty-but-valid one. -/
theorem C6_failure_signal (lib : JsonLib) :
    sanitize_transaction_ollama lib .unreachable = (none, [])
    ∧ ∀ content, process_transaction lib (.responds content) ≠ none := by
  refine ⟨rfl, fun content h => ?_⟩
  revert h
  simp only [process_transaction]
  split
  · simp
  · split
    · split
      · simp
      · simp
    · simp

/-- Counterexample to C6 as stated: for the unparseable response hello
(no fenced block, no brace), assisted-mode sanitization returns the empty
string inside a present result — not the absent failure signal the claim
requires, and indistinguishable from an empty-but-valid sanitized
string.  The JSON parsers are never consulted on this input, so the
always-failing parser model is immaterial. -/
theorem C6_counterexample :
    sanitize_transaction_ollama jsonLibNone (.responds helloChars) = (some [], [])
    ∧ (sanitize_transaction_ollama jsonLibNone (.responds helloChars)).1 ≠ none := by
  refine ⟨by decide, by decide⟩

/-! ## Sanitization-stage lemmas for the pipeline -/

theorem stage1_file_frame (lib : JsonLib) (txs : List (List Char × CollabCall)) :
    ∀ count file, stage1 lib txs count file
      = ((stage1 lib txs count []).1, file ++ (stage1 lib txs count []).2) := by
  induction txs with
  | nil =>
    intro count file
    simp [stage1]
  | cons t rest ih =>
    intro count file
    obtain ⟨tx_log, call⟩ := t
    rcases hs : sanitize_transaction_ollama lib call with ⟨res, writes⟩
    rcases res with _ | sl
    · simp only [stage1, hs, log_violations_append]
      rw [ih count (file ++ writes), ih count ([] ++ writes)]
      simp
    · by_cases hsl : sl = []
      · subst hsl
        simp only [stage1, hs, log_violations_append, if_pos]
        rw [ih count (file ++ writes), ih count ([] ++ writes)]
        simp
      · simp only [stage1, hs, log_violations_append, if_neg hsl]
        rw [ih (count + 1) (file ++ writes), ih (count + 1) ([] ++ writes)]
        simp

theorem stage1_append_eq (lib : JsonLib) (xs ys : List (List Char × CollabCall)) :
    ∀ count file, stage1 lib (xs ++ ys) count file
      = ((stage1 lib xs count file).1
          ++ (stage1 lib ys (count + (stage1 lib xs count file).1.length)
              (stage1 lib xs count file).2).1,
         (stage1 lib ys (count + (stage1 lib xs count file).1.length)
            (stage1 lib xs count file).2).2) := by
  induction xs with
  | nil =>
    intro count file
    simp [stage1]
  | cons t rest ih =>
    intro count file
    obtain ⟨tx_log, call⟩ := t
    rcases hs : sanitize_transaction_ollama lib call with ⟨res, writes⟩
    rcases res with _ | sl
    · simp only [List.cons_append, stage1, hs]
      exact ih count (log_violations file writes)
    · by_cases hsl : sl = []
      · subst hsl
        simp only [List.cons_append, stage1, hs, if_pos]
        exact ih count (log_violations file writes)
      · simp only [List.cons_append, stage1, hs, if_neg hsl]
        simp only [List.append_eq]
        rw [ih]
        simp only [List.length_cons]
        have harith : ∀ n : Nat, count + 1 + n = count + (n + 1) := by
          omega
        rw [harith]

theorem stage1_failing_cons (lib : JsonLib) (tx_log : List Char) (call : CollabCall)
    (rest : List (List Char × CollabCall)) (count : Nat) (file : List Violation)
    (hfail : (sanitize_transaction_ollama lib call).1 = none
      ∨ (sanitize_transaction_ollama lib call).1 = some []) :
    stage1 lib ((tx_log, call) :: rest) count file
      = stage1 lib rest count (file ++ (sanitize_transaction_ollama lib call).2) := by
  rcases hs : sanitize_transaction_ollama lib call with ⟨res, writes⟩
  rw [hs] at hfail
  rcases res with _ | sl
  · simp only [stage1, hs, log_violations_append]
  · rcases hfail with hfail | hfail
    · exact absurd hfail (by simp)
    · have hsl : sl = [] := by
        simpa using hfail
      subst hsl
      simp only [stage1, hs, log_violations_append, if_pos]

/-- C8 (amended): when the sanitize call for one transaction fails (an
absent or empty sanitized log), that transaction is excluded from the
sanitized-output set, the sanitization and scoring results of the
remaining transactions are exactly those of the run without it (the run
continues), and the violation set of the run is that of the run without
it except that the failing call's violations, when its response carried
any, are still inserted at its position — the failed transaction is not
excluded from the violation set. -/
theorem C8_failure_isolation (lib : JsonLib) (oracle : SanitizedTx → Option Assessment)
    (pre post : List (List Char × CollabCall)) (tx_log : List Char) (call : CollabCall)
    (hfail : (sanitize_transaction_ollama lib call).1 = none
      ∨ (sanitize_transaction_ollama lib call).1 = some []) :
    (run_pipeline lib oracle (pre ++ (tx_log, call) :: post)).1
      = (run_pipeline lib oracle (pre ++ post)).1
    ∧ (run_pipeline lib oracle (pre ++ (tx_log, call) :: post)).2
      = (stage1 lib pre 0 []).2 ++ (sanitize_transaction_ollama lib call).2
        ++ (stage1 lib post (stage1 lib pre 0 []).1.length []).2
    ∧ (run_pipeline lib oracle (pre ++ post)).2
      = (stage1 lib pre 0 []).2 ++ (stage1 lib post (stage1 lib pre 0 []).1.length []).2 := by
  have hA := stage1_append_eq lib pre ((tx_log, call) :: post) 0 []
  have hB := stage1_append_eq lib pre post 0 []
  have hmid := stage1_failing_cons lib tx_log call post
    (0 + (stage1 lib pre 0 []).1.length) (stage1 lib pre 0 []).2 hfail
  have hframe1 := stage1_file_frame lib post (0 + (stage1 lib pre 0 []).1.length)
    ((stage1 lib pre 0 []).2 ++ (sanitize_transaction_ollama lib call).2)
  have hframe2 := stage1_file_frame lib post (0 + (stage1 lib pre 0 []).1.length)
    (stage1 lib pre 0 []).2
  have hwith : stage1 lib (pre ++ (tx_log, call) :: post) 0 []
      = ((stage1 lib pre 0 []).1
          ++ (stage1 lib post (0 + (stage1 lib pre 0 []).1.length) []).1,
         ((stage1 lib pre 0 []).2 ++ (sanitize_transaction_ollama lib call).2)
          ++ (stage1 lib post (0 + (stage1 lib pre 0 []).1.length) []).2) := by
    rw [hA, hmid, hframe1]
  have hwithout : stage1 lib (pre ++ post) 0 []
      = ((stage1 lib pre 0 []).1
          ++ (stage1 lib post (0 + (stage1 lib pre 0 []).1.length) []).1,
         (stage1 lib pre 0 []).2
          ++ (stage1 lib post (0 + (stage1 lib pre 0 []).1.length) []).2) := by
    rw [hB, hframe2]
  refine ⟨?_, ?_, ?_⟩
  · simp only [run_pipeline, hwith, hwithout]
  · simp only [run_pipeline, load_all, hwith, Nat.zero_add]
    try simp [List.append_assoc]
  · simp only [run_pipeline, load_all, hwithout, Nat.zero_add]
    try simp

/-- Witness for C8 at the one-transaction batch whose collaborator call
raises. -/
theorem C8_failure_isolation_witness :
    ((sanitize_transaction_ollama jsonLibNone .unreachable).1 = none
      ∨ (sanitize_transaction_ollama jsonLibNone .unreachable).1 = some [])
    ∧ ((run_pipeline jsonLibNone oracleLowEx ([] ++ (logRaw1, CollabCall.unreachable) :: [])).1
        = (run_pipeline jsonLibNone oracleLowEx ([] ++ [])).1
      ∧ (run_pipeline jsonLibNone oracleLowEx ([] ++ (logRaw1, CollabCall.unreachable) :: [])).2
        = (stage1 jsonLibNone [] 0 []).2
          ++ (sanitize_transaction_ollama jsonLibNone .unreachable).2
          ++ (stage1 jsonLibNone [] (stage1 jsonLibNone [] 0 []).1.length []).2
      ∧ (run_pipeline jsonLibNone oracleLowEx ([] ++ [])).2
        = (stage1 jsonLibNone [] 0 []).2
          ++ (stage1 jsonLibNone [] (stage1 jsonLibNone [] 0 []).1.length []).2) :=
  ⟨Or.inl rfl,
    C8_failure_isolation jsonLibNone oracleLowEx [] [] logRaw1 .unreachable (Or.inl rfl)⟩

set_option maxRecDepth 16384 in
/-- Counterexample to C8 as stated: in a two-transaction batch whose
first collaborator response carries an empty sanitized log together with
one violation, the first transaction is excluded from the sanitized
output (which holds only the second transaction, numbered 1), yet its
violation record appears in the loaded violation set, which the claim
says must exclude it. -/
theorem C8_counterexample :
    (run_pipeline jsonLibEx oracleLowEx txsC8).2 = [vEx]
    ∧ (run_pipeline jsonLibEx oracleLowEx txsC8).1
      = some [⟨⟨txn_id_of 1, logRaw2, okChars, 0, placeholderUnknown, placeholderUnknown⟩,
          1, ['r']⟩] := by
  refine ⟨by decide, by decide⟩

end SentinelPay
